import Mathlib

/-!
# Verification of the claude-code-sdk-go protocol decoder

Shallow embedding of the Go SDK (`claude.go`, `types.go`, errors file) that
invokes the Claude Code CLI, writes a prompt to its stdin, and decodes its
newline-delimited JSON stdout into typed messages.

Modelling conventions:
* A JSON value decoded by the Go `json.Unmarshal` into `interface{}` is one of
  `nil`, `bool`, `float64`, `string`, `[]interface{}`, `map[string]interface{}`.
  We model it as the inductive `JSON` below, with numbers as exact rationals
  (`Rat`) standing for the decoded `float64` values, and objects as
  association lists queried by `JSON.lookup`.
* Go standard-library effects are passed in explicitly: `time.Now()` becomes
  the `now` field of `DecodeEnv`, `time.Parse(time.RFC3339, ·)` the `rfcParse`
  field, and `json.Unmarshal` into `map[string]interface{}` the `unmarshal`
  field (returning `none` exactly when `Unmarshal` would return an error,
  i.e. on malformed JSON or a non-object top level).
* Timestamps (`time.Time`) are modelled as `Nat`.
* A failed Go type assertion `v, ok := x.(T)` with `ok` ignored yields the
  zero value; the accessors `getString`, `getNum`, `getBool` mirror this.
-/

namespace ClaudeSDK

/-- A JSON value as produced by the Go `json.Unmarshal` into `interface{}`. -/
inductive JSON where
  | null : JSON
  | bool (b : Bool) : JSON
  | num (q : ℚ) : JSON
  | str (s : String) : JSON
  | arr (elems : List JSON) : JSON
  | obj (fields : List (String × JSON)) : JSON

/-- A raw top-level message object (`map[string]interface{}` in Go). -/
abbrev RawObj := List (String × JSON)

mutual

/-- Structural equality test for `JSON` (nested recursion, so no deriving). -/
def JSON.beq : JSON → JSON → Bool
  | .null, .null => true
  | .bool a, .bool b => a == b
  | .num a, .num b => a == b
  | .str a, .str b => a == b
  | .arr a, .arr b => JSON.beqList a b
  | .obj a, .obj b => JSON.beqFields a b
  | _, _ => false

def JSON.beqList : List JSON → List JSON → Bool
  | [], [] => true
  | x :: xs, y :: ys => JSON.beq x y && JSON.beqList xs ys
  | _, _ => false

def JSON.beqFields : List (String × JSON) → List (String × JSON) → Bool
  | [], [] => true
  | (k₁, v₁) :: xs, (k₂, v₂) :: ys =>
      k₁ == k₂ && JSON.beq v₁ v₂ && JSON.beqFields xs ys
  | _, _ => false

end

mutual

theorem JSON.beq_iff_eq : ∀ a b : JSON, JSON.beq a b = true ↔ a = b
  | .null, .null => by simp [JSON.beq]
  | .bool _, .bool _ => by simp [JSON.beq]
  | .num _, .num _ => by simp [JSON.beq]
  | .str _, .str _ => by simp [JSON.beq]
  | .arr x, .arr y => by simp [JSON.beq, JSON.beqList_iff_eq x y]
  | .obj x, .obj y => by simp [JSON.beq, JSON.beqFields_iff_eq x y]
  | .null, .bool _ | .null, .num _ | .null, .str _ | .null, .arr _
  | .null, .obj _ | .bool _, .null | .bool _, .num _ | .bool _, .str _
  | .bool _, .arr _ | .bool _, .obj _ | .num _, .null | .num _, .bool _
  | .num _, .str _ | .num _, .arr _ | .num _, .obj _ | .str _, .null
  | .str _, .bool _ | .str _, .num _ | .str _, .arr _ | .str _, .obj _
  | .arr _, .null | .arr _, .bool _ | .arr _, .num _ | .arr _, .str _
  | .arr _, .obj _ | .obj _, .null | .obj _, .bool _ | .obj _, .num _
  | .obj _, .str _ | .obj _, .arr _ => by simp [JSON.beq]

theorem JSON.beqList_iff_eq : ∀ a b : List JSON, JSON.beqList a b = true ↔ a = b
  | [], [] => by simp [JSON.beqList]
  | _ :: _, [] => by simp [JSON.beqList]
  | [], _ :: _ => by simp [JSON.beqList]
  | x :: xs, y :: ys => by
      simp [JSON.beqList, JSON.beq_iff_eq x y, JSON.beqList_iff_eq xs ys]

theorem JSON.beqFields_iff_eq :
    ∀ a b : List (String × JSON), JSON.beqFields a b = true ↔ a = b
  | [], [] => by simp [JSON.beqFields]
  | _ :: _, [] => by simp [JSON.beqFields]
  | [], _ :: _ => by simp [JSON.beqFields]
  | (k₁, v₁) :: xs, (k₂, v₂) :: ys => by
      simp [JSON.beqFields, JSON.beq_iff_eq v₁ v₂, JSON.beqFields_iff_eq xs ys,
        and_assoc]

end

instance : DecidableEq JSON :=
  fun a b => decidable_of_iff _ (JSON.beq_iff_eq a b)

/-- Key lookup in a decoded object, i.e. `m[key]` on `map[string]interface{}`.
Returns `none` when the key is absent (`ok = false` in `v, ok := m[key]`). -/
def JSON.lookup (fields : RawObj) (key : String) : Option JSON :=
  (fields.find? (fun p => p.1 == key)).map (·.2)

/-- Go type assertion `.(string)`: succeeds only on a JSON string. -/
def JSON.asStr : Option JSON → Option String
  | some (.str s) => some s
  | _ => none

/-- Go type assertion `.(float64)`: succeeds only on a JSON number. -/
def JSON.asNum : Option JSON → Option ℚ
  | some (.num q) => some q
  | _ => none

/-- Go type assertion `.(bool)`. -/
def JSON.asBool : Option JSON → Option Bool
  | some (.bool b) => some b
  | _ => none

/-- Go type assertion `.([]interface{})`. -/
def JSON.asArr : Option JSON → Option (List JSON)
  | some (.arr xs) => some xs
  | _ => none

/-- Go type assertion `.(map[string]interface{})`. -/
def JSON.asObj : Option JSON → Option RawObj
  | some (.obj fs) => some fs
  | _ => none

/-- `v, _ := m[key].(string)` — empty string when absent or not a string. -/
def getString (m : RawObj) (key : String) : String :=
  (JSON.asStr (JSON.lookup m key)).getD ""

/-- `v, _ := m[key].(float64)` — zero when absent or not a number. -/
def getNum (m : RawObj) (key : String) : ℚ :=
  (JSON.asNum (JSON.lookup m key)).getD 0

/-- `v, _ := m[key].(bool)` — false when absent or not a bool. -/
def getBool (m : RawObj) (key : String) : Bool :=
  (JSON.asBool (JSON.lookup m key)).getD false

/-- The Go `int(f)` conversion from `float64`: truncation toward zero. -/
def truncInt (q : ℚ) : ℤ :=
  if 0 ≤ q then ⌊q⌋ else ⌈q⌉

/-! ## The message / content-block data model (`types.go`) -/

/-- `MCPServer` struct: an MCP server status entry. -/
structure MCPServer where
  name : String
  status : String
deriving DecidableEq, Repr

/-- `Usage` struct: API token usage. -/
structure Usage where
  inputTokens : ℤ
  outputTokens : ℤ
deriving DecidableEq, Repr

/-- The `ContentBlock` interface with its three concrete structs
`TextBlock`, `ToolUseBlock`, `ToolResultBlock`, as a sum type.
`toolUse.input` is `none` when the Go map field would be `nil`;
`toolResult.content` is the raw `interface{}` value (`none` when absent). -/
inductive ContentBlock where
  | text (text : String) : ContentBlock
  | toolUse (id : String) (name : String) (input : Option RawObj) : ContentBlock
  | toolResult (toolUseID : String) (content : Option JSON)
      (isError : Bool) : ContentBlock
deriving DecidableEq

/-- `SystemMessage` struct. Timestamps are modelled as `Nat`. -/
structure SystemMessage where
  subtype : String
  apiKeySource : Option String := none
  cwd : Option String := none
  sessionID : String := ""
  tools : List String := []
  mcpServers : List MCPServer := []
  model : Option String := none
  permissionMode : Option String := none
  createdAt : ℕ := 0
deriving DecidableEq

/-- `AssistantMessage` struct. -/
structure AssistantMessage where
  contentBlocks : List ContentBlock
  parentToolUseID : Option String := none
  sessionID : String := ""
  createdAt : ℕ := 0
deriving DecidableEq

/-- `UserMessage` struct (same shape as `AssistantMessage`, kept distinct
to mirror the two Go structs). -/
structure UserMessage where
  contentBlocks : List ContentBlock
  parentToolUseID : Option String := none
  sessionID : String := ""
  createdAt : ℕ := 0
deriving DecidableEq

/-- `ResultMessage` struct. -/
structure ResultMessage where
  subtype : String := ""
  durationMs : ℤ := 0
  durationAPIMs : ℤ := 0
  isError : Bool := false
  numTurns : ℤ := 0
  sessionID : String := ""
  totalCostUSD : Option ℚ := none
  usage : Option Usage := none
  result : Option String := none
  createdAt : ℕ := 0
deriving DecidableEq

/-- The `Message` interface with its four concrete structs, as a sum type. -/
inductive Message where
  | system (m : SystemMessage) : Message
  | assistant (m : AssistantMessage) : Message
  | user (m : UserMessage) : Message
  | result (m : ResultMessage) : Message
deriving DecidableEq

/-! ## Error taxonomy (errors file) -/

/-- The `Data` field of `CLIJSONDecodeError`: either the raw output line
verbatim (`readMessages` / `streamMessages` path), or the string that the Go
`fmt.Sprintf("%v", v)` produces from an already-decoded value
(`parseMessage` / `parseContentBlock` path); we carry the value itself. -/
inductive ErrData where
  | raw (line : String) : ErrData
  | formatted (v : JSON) : ErrData
deriving DecidableEq

/-- The SDK error taxonomy: `CLINotFoundError`, `CLIConnectionError`
(cause error value omitted), `ProcessError`, `CLIJSONDecodeError`
(`cause` is the message of the wrapped error). -/
inductive CCError where
  | notFound (path : String) : CCError
  | connection (message : String) : CCError
  | process (exitCode : ℤ) (stderr : String) (stdout : String) : CCError
  | jsonDecode (data : ErrData) (cause : String) : CCError
deriving DecidableEq

/-! ## Decoding environment

Explicit parameters standing for the Go standard-library calls the decoder
makes: `time.Now()`, `time.Parse(time.RFC3339, ·)` and `json.Unmarshal`
into `map[string]interface{}`. -/

/-- Ambient inputs of one decode run. `unmarshal line = none` models
`json.Unmarshal([]byte(line), &rawMessage)` returning an error (malformed
JSON or a top level that is not an object). -/
structure DecodeEnv where
  unmarshal : String → Option RawObj
  rfcParse : String → Option ℕ
  now : ℕ
  format : JSON → String

/-! ## The protocol decoder (`claude.go` lines 536–821) -/

/-- `parseTimestamp`: RFC3339 `timestamp` field when present and parseable,
current time otherwise. -/
def parseTimestamp (env : DecodeEnv) (rawMessage : RawObj) : ℕ :=
  match JSON.asStr (JSON.lookup rawMessage "timestamp") with
  | some ts => (env.rfcParse ts).getD env.now
  | none => env.now

/-- `parseCommonFields`: session ID (empty-string default) and the
parent-tool-use pointer (set only when the string is non-empty). -/
def parseCommonFields (rawMessage : RawObj) : String × Option String :=
  let sessionID := getString rawMessage "session_id"
  let parentToolUseID := getString rawMessage "parent_tool_use_id"
  (sessionID, if parentToolUseID ≠ "" then some parentToolUseID else none)

/-- `parseStringPtr`: pointer to the string value when present, a string,
and non-empty; nil otherwise. -/
def parseStringPtr (rawMessage : RawObj) (key : String) : Option String :=
  match JSON.asStr (JSON.lookup rawMessage key) with
  | some value => if value ≠ "" then some value else none
  | none => none

/-- `parseToolsArray`: collects the string elements of the `tools` array,
skipping non-string elements. -/
def parseToolsArray (rawMessage : RawObj) : List String :=
  match JSON.asArr (JSON.lookup rawMessage "tools") with
  | some toolsArray =>
      toolsArray.filterMap (fun tool =>
        match tool with
        | .str toolStr => some toolStr
        | _ => none)
  | none => []

/-- `parseMCPServers`: collects the object elements of `mcp_servers`,
skipping non-object elements. -/
def parseMCPServers (rawMessage : RawObj) : List MCPServer :=
  match JSON.asArr (JSON.lookup rawMessage "mcp_servers") with
  | some mcpArray =>
      mcpArray.filterMap (fun server =>
        match server with
        | .obj serverMap =>
            some { name := getString serverMap "name",
                   status := getString serverMap "status" }
        | _ => none)
  | none => []

/-- `parseUsage`: token counts from the `usage` object (zero defaults),
nil when `usage` is absent or not an object. -/
def parseUsage (rawMessage : RawObj) : Option Usage :=
  match JSON.asObj (JSON.lookup rawMessage "usage") with
  | some usageMap =>
      some { inputTokens := truncInt (getNum usageMap "input_tokens"),
             outputTokens := truncInt (getNum usageMap "output_tokens") }
  | none => none

/-- `parseSystemMessage`: always succeeds (the Go error result is always
nil), so it is modelled as returning the constructed struct directly. -/
def parseSystemMessage (rawMessage : RawObj) (sessionID : String)
    (timestamp : ℕ) : SystemMessage :=
  {
    subtype := getString rawMessage "subtype",
    apiKeySource := parseStringPtr rawMessage "apiKeySource",
    cwd := parseStringPtr rawMessage "cwd",
    sessionID := sessionID,
    tools := parseToolsArray rawMessage,
    mcpServers := parseMCPServers rawMessage,
    model := parseStringPtr rawMessage "model",
    permissionMode := parseStringPtr rawMessage "permissionMode",
    createdAt := timestamp }

/-- `parseContentBlock`: one content block from one array element / object.
A JSON `null` stored under `content` of a tool-result block is collapsed to
`none`, as a nil `interface{}` value is indistinguishable from an absent key
at this point in the Go code. -/
def parseContentBlock (rawBlock : JSON) : Except CCError ContentBlock :=
  match rawBlock with
  | .obj blockMap =>
    match JSON.asStr (JSON.lookup blockMap "type") with
    | none =>
      match JSON.asStr (JSON.lookup blockMap "text") with
      | some text => .ok (.text text)
      | none =>
          .error (.jsonDecode (.formatted rawBlock) "missing content block type")
    | some blockType =>
      if blockType = "text" then
        match JSON.asStr (JSON.lookup blockMap "text") with
        | some text => .ok (.text text)
        | none =>
            .error (.jsonDecode (.formatted rawBlock) "missing text in text block")
      else if blockType = "tool_use" then
        .ok (.toolUse (getString blockMap "id") (getString blockMap "name")
              (JSON.asObj (JSON.lookup blockMap "input")))
      else if blockType = "tool_result" then
        .ok (.toolResult (getString blockMap "tool_use_id")
              (match JSON.lookup blockMap "content" with
               | some .null => none
               | v => v)
              (getBool blockMap "is_error"))
      else
        .error (.jsonDecode (.formatted rawBlock)
                  ("unknown content block type: " ++ blockType))
  | .str s => .ok (.text s)
  | _ => .error (.jsonDecode (.formatted rawBlock) "invalid content block format")

/-- The element loop of `parseContentBlocks` on an array: parse each element
in order, stopping at the first failure. -/
def parseContentBlockList : List JSON → Except CCError (List ContentBlock)
  | [] => .ok []
  | rawBlock :: rest =>
    match parseContentBlock rawBlock with
    | .error e => .error e
    | .ok block =>
      match parseContentBlockList rest with
      | .error e => .error e
      | .ok blocks => .ok (block :: blocks)

/-- `parseContentBlocks`: the three accepted shapes of `message.content`
(bare string, array of blocks, single object), everything else an error. -/
def parseContentBlocks (rawContent : JSON) : Except CCError (List ContentBlock) :=
  match rawContent with
  | .str content => .ok [.text content]
  | .arr content => parseContentBlockList content
  | .obj content =>
    match parseContentBlock (.obj content) with
    | .error e => .error e
    | .ok block => .ok [block]
  | _ => .error (.jsonDecode (.formatted rawContent) "invalid content format")

/-- `parseMessageContent`: the nested `message.content` extraction; any
missing layer yields the empty block list without error, but a present
`content` value of invalid shape fails. -/
def parseMessageContent (rawMessage : RawObj) : Except CCError (List ContentBlock) :=
  match JSON.asObj (JSON.lookup rawMessage "message") with
  | some msgMap =>
    match JSON.lookup msgMap "content" with
    | some content => parseContentBlocks content
    | none => .ok []
  | none => .ok []

/-- `parseAssistantMessage`. -/
def parseAssistantMessage (rawMessage : RawObj) (sessionID : String)
    (parentToolUseIDPtr : Option String) (timestamp : ℕ) : Except CCError Message :=
  match parseMessageContent rawMessage with
  | .error e => .error e
  | .ok contentBlocks =>
      .ok (.assistant { contentBlocks := contentBlocks,
                        parentToolUseID := parentToolUseIDPtr,
                        sessionID := sessionID,
                        createdAt := timestamp })

/-- `parseUserMessage`. -/
def parseUserMessage (rawMessage : RawObj) (sessionID : String)
    (parentToolUseIDPtr : Option String) (timestamp : ℕ) : Except CCError Message :=
  match parseMessageContent rawMessage with
  | .error e => .error e
  | .ok contentBlocks =>
      .ok (.user { contentBlocks := contentBlocks,
                   parentToolUseID := parentToolUseIDPtr,
                   sessionID := sessionID,
                   createdAt := timestamp })

/-- `parseResultMessage`: defensive field extraction, `total_cost_usd`
pointer set only when strictly positive, `result` stringified with
`fmt.Sprintf` (modelled by `env.format`) whenever the key is present. -/
def parseResultMessage (env : DecodeEnv) (rawMessage : RawObj)
    (sessionID : String) (timestamp : ℕ) : ResultMessage :=
  let totalCostUSD := getNum rawMessage "total_cost_usd"
  {
    subtype := getString rawMessage "subtype",
    durationMs := truncInt (getNum rawMessage "duration_ms"),
    durationAPIMs := truncInt (getNum rawMessage "duration_api_ms"),
    isError := getBool rawMessage "is_error",
    numTurns := truncInt (getNum rawMessage "num_turns"),
    sessionID := sessionID,
    totalCostUSD := if 0 < totalCostUSD then some totalCostUSD else none,
    usage := parseUsage rawMessage,
    result := (JSON.lookup rawMessage "result").map env.format,
    createdAt := timestamp }

/-- `parseMessage`: dispatch on the `type` discriminator; missing or
non-string discriminator fails, an unrecognized one falls back to a
`System` message carrying it as subtype. -/
def parseMessage (env : DecodeEnv) (rawMessage : RawObj) : Except CCError Message :=
  match JSON.asStr (JSON.lookup rawMessage "type") with
  | none =>
      .error (.jsonDecode (.formatted (.obj rawMessage))
                "missing or invalid message type")
  | some messageType =>
    let timestamp := parseTimestamp env rawMessage
    let sessionID := (parseCommonFields rawMessage).1
    let parentToolUseIDPtr := (parseCommonFields rawMessage).2
    if messageType = "system" then
      .ok (.system (parseSystemMessage rawMessage sessionID timestamp))
    else if messageType = "assistant" then
      parseAssistantMessage rawMessage sessionID parentToolUseIDPtr timestamp
    else if messageType = "user" then
      parseUserMessage rawMessage sessionID parentToolUseIDPtr timestamp
    else if messageType = "result" then
      .ok (.result (parseResultMessage env rawMessage sessionID timestamp))
    else
      .ok (.system { subtype := messageType,
                     sessionID := sessionID,
                     createdAt := timestamp })

/-! ## Line scanning and the two read loops (`claude.go` lines 265–305, 475–533)

`bufio.Scanner` with the default `ScanLines` split yields the lines of the stream
without their terminators, dropping a final `\r`. `scanLines` reproduces
this; it emits one final empty token when the input ends in a newline (or is
empty) where the real scanner emits none, which is harmless because both
read loops skip empty lines. The scanner maximum token size is not
modelled (all lines are assumed to fit). -/

/-- Drop a final carriage return (the `dropCR` step of `bufio.ScanLines`). -/
def dropCR (cs : List Char) : List Char :=
  if cs.getLast? = some '\r' then cs.dropLast else cs

/-- Split a character stream at newlines, accumulating the current line in
reverse. -/
def scanLinesAux : List Char → List Char → List String
  | [], cur => [String.mk (dropCR cur.reverse)]
  | c :: rest, cur =>
    if c = '\n' then String.mk (dropCR cur.reverse) :: scanLinesAux rest []
    else scanLinesAux rest (c :: cur)

/-- The sequence of lines a `bufio.Scanner` produces from the stream. -/
def scanLines (s : String) : List String :=
  scanLinesAux s.data []

/-- The stdout of the child process as observed by the SDK: the bytes available
before end-of-stream, and an optional read error reported after them
(surfaced by `scanner.Err()` or `io.ReadAll`). -/
structure OutputStream where
  raw : String
  scanErr : Option String := none

/-- The shared line loop of `readMessages`: skip empty lines, unmarshal,
parse, stop at the first failure. The `cause` of the unmarshal failure is
the `encoding/json` error message, modelled by a fixed tag. -/
def decodeLines (env : DecodeEnv) : List String → Except CCError (List Message)
  | [] => .ok []
  | line :: rest =>
    if line = "" then decodeLines env rest
    else
      match env.unmarshal line with
      | none => .error (.jsonDecode (.raw line) "json unmarshal error")
      | some rawMessage =>
        match parseMessage env rawMessage with
        | .error e => .error e
        | .ok message =>
          match decodeLines env rest with
          | .error e => .error e
          | .ok messages => .ok (message :: messages)

/-- `readMessages` (batch read): decode every line, then check the scanner
error. A decode failure returns before `scanner.Err()` is consulted, as in
the Go loop. -/
def readMessages (env : DecodeEnv) (stdout : OutputStream) :
    Except CCError (List Message) :=
  match decodeLines env (scanLines stdout.raw) with
  | .error e => .error e
  | .ok messages =>
    match stdout.scanErr with
    | some _ => .error (.connection "error reading CLI output")
    | none => .ok messages

/-- The loop of `streamMessages`, modelling the run in which the context is
never cancelled and every channel send is accepted: first component is the
sequence of messages delivered on `messageChan`, second the error (if any)
sent on `errorChan` by the loop itself. -/
def streamLoop (env : DecodeEnv) : List String → List Message × Option CCError
  | [] => ([], none)
  | line :: rest =>
    if line = "" then streamLoop env rest
    else
      match env.unmarshal line with
      | none => ([], some (.jsonDecode (.raw line) "json unmarshal error"))
      | some rawMessage =>
        match parseMessage env rawMessage with
        | .error e => ([], some e)
        | .ok message =>
          let (messages, err) := streamLoop env rest
          (message :: messages, err)

/-- `streamMessages` (streaming read): the line loop followed by the
`scanner.Err()` check, which is reached only when the loop saw no failure. -/
def streamMessages (env : DecodeEnv) (stdout : OutputStream) :
    List Message × Option CCError :=
  match streamLoop env (scanLines stdout.raw) with
  | (messages, some e) => (messages, some e)
  | (messages, none) =>
    match stdout.scanErr with
    | some _ => (messages, some (.connection "error reading CLI output"))
    | none => (messages, none)

/-- `readTextOutput`: read the whole stream (`io.ReadAll`) and wrap it in a
single synthetic `ResultMessage`; the remaining fields are Go zero values. -/
def readTextOutput (env : DecodeEnv) (stdout : OutputStream) :
    Except CCError (List Message) :=
  match stdout.scanErr with
  | some _ => .error (.connection "error reading text output")
  | none =>
    .ok [.result { subtype := "text_output",
                   result := some stdout.raw,
                   sessionID := "text_output_session",
                   createdAt := env.now }]

/-! ## Options and argument assembly (`types.go`, `claude.go` lines 416–429)

Only the `Options` fields read by the functions modelled here are carried;
the other ~18 fields feed the remaining flag-builder helpers
(`addPromptArgs`, `addModelAndToolArgs`, …), which are plain value-to-string
mappings outside the decoding core, and none of them emits `--verbose` or
`--output-format`. -/

/-- The `OutputFormat` string enumeration. -/
inductive OutputFormat where
  | text : OutputFormat
  | json : OutputFormat
  | streamJSON : OutputFormat
deriving DecidableEq

/-- The string value of an output format constant. -/
def OutputFormat.toArg : OutputFormat → String
  | .text => "text"
  | .json => "json"
  | .streamJSON => "stream-json"

/-- The `Options` struct, restricted to the fields the modelled core reads.
`none` models a nil pointer. -/
structure Options where
  outputFormat : Option OutputFormat := none
  verbose : Option Bool := none

/-- `readOutput`: choose the decode strategy from the effective output
format, which defaults to `stream-json` when unset. -/
def readOutput (env : DecodeEnv) (stdout : OutputStream) (options : Options) :
    Except CCError (List Message) :=
  let outputFormat := options.outputFormat.getD .streamJSON
  if outputFormat = .text then readTextOutput env stdout
  else readMessages env stdout

/-- `addOutputArgs`: append `--output-format` and possibly `--verbose`.
`options.verbose = some true` is the Go `options.Verbose != nil && *options.Verbose`. -/
def addOutputArgs (args : List String) (options : Options) : List String :=
  let outputFormat := options.outputFormat.getD .streamJSON
  let args := args ++ ["--output-format", outputFormat.toArg]
  if options.verbose = some true then args ++ ["--verbose"]
  else if outputFormat = .streamJSON then args ++ ["--verbose"]
  else args

/-- `prepareStreamOptions`: the streaming entry point always forces the
`stream-json` output format before building arguments. -/
def prepareStreamOptions (options : Options) : Options :=
  { options with outputFormat := some .streamJSON }

/-! ## Process lifecycle and the two query entry points
(`claude.go` lines 22–151, 160–326)

The interaction of one query with the operating system is summarised by a
`ProcessRun`: which of the fallible system calls failed, what the child
wrote on each stream, and how `cmd.Wait` ended. The entry points are then
deterministic functions of this record, returning the Go pair
`([]Message, error)` as `List Message × Option CCError` (`Query` returns
both values; the message list is empty on the early-error paths). -/

/-- Outcome of `cmd.Wait()`: success, an `*exec.ExitError` carrying the
exit code, or another error kind. -/
inductive WaitResult where
  | success : WaitResult
  | exitError (code : ℤ) : WaitResult
  | otherError (message : String) : WaitResult
deriving DecidableEq

/-- Process-level events of one query. -/
structure ProcessRun where
  /-- `findCLIExecutable` failure: the `CLINotFoundError` path value. -/
  cliNotFound : Option String := none
  /-- pipe-creation failure (`createPipes`): the connection-error message. -/
  pipeErr : Option String := none
  /-- `cmd.Start()` failure. -/
  startErr : Option String := none
  /-- `stdin.Write(prompt)` failure. -/
  writeErr : Option String := none
  /-- the stdout of the child. -/
  stdout : OutputStream
  /-- the captured stderr content of the child. -/
  stderr : String := ""
  /-- `io.ReadAll(stderr)` failure. -/
  stderrReadErr : Bool := false
  /-- `cmd.Wait()` outcome. -/
  wait : WaitResult := .success

/-- The stderr text used in error payloads: the captured content, or the
fixed placeholder when reading stderr itself failed. -/
def stderrText (r : ProcessRun) : String :=
  if r.stderrReadErr then "failed to read stderr" else r.stderr

/-- `handleReadError`: builds the batch-mode error for a failed read. Its
Go signature is `handleReadError(_ error, stderr io.ReadCloser)` — the read
error is discarded and replaced by a `ProcessError` with exit code `-1`. -/
def handleReadError (r : ProcessRun) : CCError :=
  .process (-1) (stderrText r) ""

/-- `waitForCommand`: non-zero exit becomes `ProcessError` with captured
stderr; a non-exit `Wait` failure becomes `CLIConnectionError`. -/
def waitForCommand (r : ProcessRun) : Option CCError :=
  match r.wait with
  | .success => none
  | .exitError code => some (.process code (stderrText r) "")
  | .otherError _ => some (.connection "CLI process failed")

/-- `waitForStreamCommand`: textually separate in the source but with the
same classification as `waitForCommand`; the error goes to `errorChan`. -/
def waitForStreamCommand (r : ProcessRun) : Option CCError :=
  match r.wait with
  | .success => none
  | .exitError code => some (.process code (stderrText r) "")
  | .otherError _ => some (.connection "CLI process failed")

/-- `Query` (batch): locate the CLI, create pipes, start, write the prompt,
read all output, then wait. A read failure is passed through
`handleReadError` (discarding the read error); otherwise the messages are
returned together with the verdict of `waitForCommand`. -/
def Query (env : DecodeEnv) (r : ProcessRun) (options : Options) :
    List Message × Option CCError :=
  match r.cliNotFound with
  | some path => ([], some (.notFound path))
  | none =>
    match r.pipeErr with
    | some msg => ([], some (.connection msg))
    | none =>
      match r.startErr with
      | some _ => ([], some (.connection "failed to start Claude CLI"))
      | none =>
        match r.writeErr with
        | some _ => ([], some (.connection "failed to write prompt to stdin"))
        | none =>
          match readOutput env r.stdout options with
          | .error _ => ([], some (handleReadError r))
          | .ok messages => (messages, waitForCommand r)

/-- `QueryStream` (streaming), modelling the goroutine run without
cancellation: after setup, `sendPrompt` writes the prompt in a separate
goroutine and discards any write error (`_, _ = stdin.Write(...)`), so
`r.writeErr` is never consulted; the deliveries of the stream loop and its first
error are then reconciled with `waitForStreamCommand`. -/
def QueryStream (env : DecodeEnv) (r : ProcessRun) (options : Options) :
    List Message × Option CCError :=
  match r.cliNotFound with
  | some path => ([], some (.notFound path))
  | none =>
    match r.pipeErr with
    | some msg => ([], some (.connection msg))
    | none =>
      match r.startErr with
      | some _ => ([], some (.connection "failed to start Claude CLI"))
      | none =>
        match streamMessages env r.stdout with
        | (messages, some e) => (messages, some e)
        | (messages, none) => (messages, waitForStreamCommand r)

/-! ## Concrete instances used by witnesses -/

instance {ε α : Type} [DecidableEq ε] [DecidableEq α] : DecidableEq (Except ε α) :=
  fun a b =>
    match a, b with
    | .ok x, .ok y =>
        if h : x = y then .isTrue (by rw [h])
        else .isFalse (fun hc => h (Except.ok.inj hc))
    | .error x, .error y =>
        if h : x = y then .isTrue (by rw [h])
        else .isFalse (fun hc => h (Except.error.inj hc))
    | .ok _, .error _ => .isFalse (fun hc => Except.noConfusion hc)
    | .error _, .ok _ => .isFalse (fun hc => Except.noConfusion hc)

/-- A concrete decode environment for evaluating the model on closed inputs:
`unmarshal` recognises two line spellings (standing for two well-formed JSON
object lines) and rejects everything else, `rfcParse` recognises one
timestamp spelling, the clock reads 5. -/
def sampleEnv : DecodeEnv :=
  { unmarshal := fun line =>
      if line = "sysline" then some [("type", JSON.str "system")]
      else if line = "resline" then
        some [("type", JSON.str "result"), ("total_cost_usd", JSON.num 3)]
      else none,
    rfcParse := fun ts => if ts = "stamp" then some 100 else none,
    now := 5,
    format := fun _ => "" }

/-! ## Helper lemmas -/

/-- The element loop of `parseContentBlocks` succeeds exactly by decoding
each array element in order into the block at the same position. -/
theorem parseContentBlockList_ok_spec (elems : List JSON)
    (blocks : List ContentBlock) (h : parseContentBlockList elems = .ok blocks) :
    blocks.length = elems.length ∧
    ∀ i (hi : i < elems.length) (hb : i < blocks.length),
      parseContentBlock (elems.get ⟨i, hi⟩) = .ok (blocks.get ⟨i, hb⟩) := by
  induction elems generalizing blocks with
  | nil =>
    simp only [parseContentBlockList, Except.ok.injEq] at h
    subst h
    exact ⟨rfl, fun i hi hb => absurd hi (by simp)⟩
  | cons a rest ih =>
    unfold parseContentBlockList at h
    cases hpb : parseContentBlock a with
    | error e => simp [hpb] at h
    | ok block =>
      simp only [hpb] at h
      cases hrest : parseContentBlockList rest with
      | error e => simp [hrest] at h
      | ok blks =>
        simp only [hrest, Except.ok.injEq] at h
        subst h
        obtain ⟨hlen, hidx⟩ := ih blks hrest
        refine ⟨by simp [hlen], ?_⟩
        intro i hi hb
        cases i with
        | zero => simpa using hpb
        | succ j =>
          simp only [List.get_cons_succ]
          exact hidx j (Nat.lt_of_succ_lt_succ hi) (Nat.lt_of_succ_lt_succ hb)

/-! ## Claim C6 -/

/-- Claim C6: for every assistant/user content array that decodes
successfully, the resulting block sequence has the length of the array and the
block at each position is the decode of the array element at that same
position (order preserved exactly). -/
theorem contentBlocks_preserve_array_order (elems : List JSON)
    (blocks : List ContentBlock)
    (h : parseContentBlocks (.arr elems) = .ok blocks) :
    blocks.length = elems.length ∧
    ∀ i (hi : i < elems.length) (hb : i < blocks.length),
      parseContentBlock (elems.get ⟨i, hi⟩) = .ok (blocks.get ⟨i, hb⟩) :=
  parseContentBlockList_ok_spec elems blocks h

/-- Witness for C6: a two-element array (a bare string and a text object)
decodes to the two text blocks in the same order. -/
theorem contentBlocks_preserve_array_order_witness :
    parseContentBlocks
        (.arr [.str "hi", .obj [("type", JSON.str "text"), ("text", JSON.str "yo")]]) =
      .ok [.text "hi", .text "yo"] ∧
    ([ContentBlock.text "hi", ContentBlock.text "yo"].length =
      [JSON.str "hi", JSON.obj [("type", JSON.str "text"), ("text", JSON.str "yo")]].length ∧
     ∀ i (hi : i < [JSON.str "hi",
         JSON.obj [("type", JSON.str "text"), ("text", JSON.str "yo")]].length)
       (hb : i < [ContentBlock.text "hi", ContentBlock.text "yo"].length),
       parseContentBlock
           ([JSON.str "hi",
             JSON.obj [("type", JSON.str "text"), ("text", JSON.str "yo")]].get ⟨i, hi⟩) =
         .ok ([ContentBlock.text "hi", ContentBlock.text "yo"].get ⟨i, hb⟩)) :=
  ⟨rfl, contentBlocks_preserve_array_order _ _ rfl⟩

/-! ## Claim C7 -/

/-- Claim C7: a `result` record with `total_cost_usd` present as a number
greater than zero yields a cost field equal to that value; a value of zero
or an absent key yields a nil cost field. -/
theorem resultMessage_cost_field (env : DecodeEnv) (rawMessage : RawObj)
    (sessionID : String) (timestamp : ℕ) :
    (∀ q : ℚ, JSON.lookup rawMessage "total_cost_usd" = some (.num q) →
      ((0 < q →
        (parseResultMessage env rawMessage sessionID timestamp).totalCostUSD = some q) ∧
       (q = 0 →
        (parseResultMessage env rawMessage sessionID timestamp).totalCostUSD = none))) ∧
    (JSON.lookup rawMessage "total_cost_usd" = none →
      (parseResultMessage env rawMessage sessionID timestamp).totalCostUSD = none) := by
  refine ⟨fun q hq => ⟨fun hpos => ?_, fun h0 => ?_⟩, fun hq => ?_⟩
  · simp [parseResultMessage, getNum, JSON.asNum, hq, hpos]
  · subst h0
    simp [parseResultMessage, getNum, JSON.asNum, hq]
  · simp [parseResultMessage, getNum, JSON.asNum, hq]

/-- Witness for C7: cost 3 is kept, an absent key gives nil. -/
theorem resultMessage_cost_field_witness :
    JSON.lookup [("total_cost_usd", JSON.num 3)] "total_cost_usd" =
      some (.num 3) ∧
    (0 : ℚ) < 3 ∧
    (parseResultMessage sampleEnv [("total_cost_usd", JSON.num 3)] "s" 0).totalCostUSD =
      some 3 ∧
    (parseResultMessage sampleEnv [] "s" 0).totalCostUSD = none :=
  ⟨rfl, by norm_num,
   ((resultMessage_cost_field sampleEnv [("total_cost_usd", JSON.num 3)] "s" 0).1
      3 rfl).1 (by norm_num),
   (resultMessage_cost_field sampleEnv [] "s" 0).2 rfl⟩

/-! ## Claim C3 -/

/-- The offending-element condition of claim C3, stated from the claim
words: an array element that is neither a JSON object nor a JSON string, or
an object whose block-type discriminator is none of `text` / `tool_use` /
`tool_result` and which lacks the text-field fallback (the fallback applies
only when the discriminator is missing or not a string). -/
def unrecognizedContentElement (j : JSON) : Bool :=
  match j with
  | .str _ => false
  | .obj fields =>
    match JSON.asStr (JSON.lookup fields "type") with
    | some t =>
        if t = "text" ∨ t = "tool_use" ∨ t = "tool_result" then false else true
    | none => (JSON.asStr (JSON.lookup fields "text")).isNone
  | _ => true

/-- Every failure of `parseContentBlock` is a `CLIJSONDecodeError`. -/
theorem parseContentBlock_error_shape (j : JSON) (e : CCError)
    (h : parseContentBlock j = .error e) : ∃ d c, e = .jsonDecode d c := by
  unfold parseContentBlock at h
  repeat' split at h
  all_goals first
    | exact ⟨_, _, (Except.error.inj h).symm⟩
    | exact absurd h (by simp)

/-- An element satisfying the C3 condition makes `parseContentBlock` fail
with a `CLIJSONDecodeError`. -/
theorem unrecognizedContentElement_fails (j : JSON)
    (h : unrecognizedContentElement j = true) :
    ∃ d c, parseContentBlock j = .error (.jsonDecode d c) := by
  cases j with
  | null => exact ⟨_, _, rfl⟩
  | bool b => exact ⟨_, _, rfl⟩
  | num q => exact ⟨_, _, rfl⟩
  | arr xs => exact ⟨_, _, rfl⟩
  | str s => simp [unrecognizedContentElement] at h
  | obj fields =>
    cases ht : JSON.asStr (JSON.lookup fields "type") with
    | some t =>
      simp only [unrecognizedContentElement, ht] at h
      split at h
      · exact absurd h (by simp)
      · rename_i hnot
        have h1 : ¬ t = "text" := fun hh => hnot (Or.inl hh)
        have h2 : ¬ t = "tool_use" := fun hh => hnot (Or.inr (Or.inl hh))
        have h3 : ¬ t = "tool_result" := fun hh => hnot (Or.inr (Or.inr hh))
        exact ⟨.formatted (.obj fields), "unknown content block type: " ++ t,
          by simp [parseContentBlock, ht, h1, h2, h3]⟩
    | none =>
      simp only [unrecognizedContentElement, ht] at h
      cases htx : JSON.asStr (JSON.lookup fields "text") with
      | some s => rw [htx] at h; simp at h
      | none =>
        exact ⟨.formatted (.obj fields), "missing content block type",
          by simp [parseContentBlock, ht, htx]⟩

/-- If some array element fails its block decode, the whole element loop
fails with a `CLIJSONDecodeError` (the offending element is not skipped). -/
theorem parseContentBlockList_fails_of_mem (elems : List JSON) (b : JSON)
    (hmem : b ∈ elems)
    (hb : ∃ d c, parseContentBlock b = .error (.jsonDecode d c)) :
    ∃ d c, parseContentBlockList elems = .error (.jsonDecode d c) := by
  induction elems with
  | nil => cases hmem
  | cons a rest ih =>
    cases hpa : parseContentBlock a with
    | error e =>
      obtain ⟨d, c, he⟩ := parseContentBlock_error_shape a e hpa
      exact ⟨d, c, by subst he; simp [parseContentBlockList, hpa]⟩
    | ok block =>
      have hbr : b ∈ rest := by
        cases hmem with
        | head =>
          obtain ⟨d, c, hbe⟩ := hb
          rw [hpa] at hbe
          exact absurd hbe (by simp)
        | tail _ hmem' => exact hmem'
      obtain ⟨d, c, hlist⟩ := ih hbr
      exact ⟨d, c, by simp [parseContentBlockList, hpa, hlist]⟩

/-- Claim C3: an assistant or user record whose `message.content` array
contains an element that is neither object nor string, or an object with an
unrecognized block-type discriminator (without the text-field fallback),
fails the entire message decode with a `CLIJSONDecodeError` — no message,
hence no partial content-block list, is produced. -/
theorem badContentElement_fails_whole_message (env : DecodeEnv)
    (rawMessage msgMap : RawObj) (elems : List JSON) (b : JSON) (t : String)
    (htype : JSON.asStr (JSON.lookup rawMessage "type") = some t)
    (ht : t = "assistant" ∨ t = "user")
    (hmsg : JSON.asObj (JSON.lookup rawMessage "message") = some msgMap)
    (hcontent : JSON.lookup msgMap "content" = some (.arr elems))
    (hmem : b ∈ elems)
    (hbad : unrecognizedContentElement b = true) :
    ∃ d c, parseMessage env rawMessage = .error (.jsonDecode d c) := by
  obtain ⟨d, c, hlist⟩ := parseContentBlockList_fails_of_mem elems b hmem
    (unrecognizedContentElement_fails b hbad)
  have hmc : parseMessageContent rawMessage = .error (.jsonDecode d c) := by
    simp only [parseMessageContent, hmsg, hcontent]
    exact hlist
  refine ⟨d, c, ?_⟩
  unfold parseMessage
  rw [htype]
  cases ht with
  | inl h => subst h; simp [parseAssistantMessage, hmc]
  | inr h => subst h; simp [parseUserMessage, hmc]

/-- Witness for C3: a content array whose single element is the object with
block type `bogus`; the whole assistant message decode fails. -/
theorem badContentElement_fails_whole_message_witness :
    JSON.asStr (JSON.lookup
        [("type", JSON.str "assistant"),
         ("message", JSON.obj
           [("content", JSON.arr [JSON.obj [("type", JSON.str "bogus")]])])]
        "type") = some "assistant" ∧
    unrecognizedContentElement (JSON.obj [("type", JSON.str "bogus")]) = true ∧
    (∃ d c, parseMessage sampleEnv
        [("type", JSON.str "assistant"),
         ("message", JSON.obj
           [("content", JSON.arr [JSON.obj [("type", JSON.str "bogus")]])])] =
      .error (.jsonDecode d c)) :=
  ⟨rfl, by decide,
   badContentElement_fails_whole_message sampleEnv _ _ _
     (JSON.obj [("type", JSON.str "bogus")]) "assistant" rfl (Or.inl rfl) rfl rfl
     (List.mem_singleton.mpr rfl) (by decide)⟩

/-! ## Claim C1 -/

/-- Counterexample to claim C1 as stated: an object whose `type` is the
string `assistant` — so the "fails exactly when `type` is missing or not a
string" biconditional predicts success — on which `parseMessage`
nevertheless fails, because the nested content-block decode fails. -/
theorem parseMessage_fails_with_string_type_counterexample :
    JSON.asStr (JSON.lookup
        [("type", JSON.str "assistant"),
         ("message", JSON.obj
           [("content", JSON.arr [JSON.obj [("type", JSON.str "bogus")]])])]
        "type") = some "assistant" ∧
    parseMessage sampleEnv
        [("type", JSON.str "assistant"),
         ("message", JSON.obj
           [("content", JSON.arr [JSON.obj [("type", JSON.str "bogus")]])])] =
      .error (.jsonDecode (.formatted (.obj [("type", JSON.str "bogus")]))
                ("unknown content block type: bogus")) :=
  ⟨rfl, rfl⟩

/-- Claim C1 (amended): `parseMessage` fails with a `CLIJSONDecodeError`
whenever the `type` field is missing or not a string (failures can also
arise from assistant/user content-block decoding); an object whose `type`
is a string outside the four recognized values decodes successfully as a
`System` fallback whose subtype is that raw discriminator string. -/
theorem parseMessage_type_dispatch (env : DecodeEnv) (rawMessage : RawObj) :
    (JSON.asStr (JSON.lookup rawMessage "type") = none →
      parseMessage env rawMessage =
        .error (.jsonDecode (.formatted (.obj rawMessage))
                  "missing or invalid message type")) ∧
    (∀ t, JSON.asStr (JSON.lookup rawMessage "type") = some t →
      t ≠ "system" → t ≠ "assistant" → t ≠ "user" → t ≠ "result" →
      parseMessage env rawMessage =
        .ok (.system { subtype := t,
                       sessionID := (parseCommonFields rawMessage).1,
                       createdAt := parseTimestamp env rawMessage })) := by
  constructor
  · intro h
    unfold parseMessage
    rw [h]
  · intro t ht h1 h2 h3 h4
    unfold parseMessage
    rw [ht]
    simp [h1, h2, h3, h4]

/-- Witness for C1: an empty object fails; an object with the unrecognized
type `weird` becomes a `System` fallback with subtype `weird`. -/
theorem parseMessage_type_dispatch_witness :
    JSON.asStr (JSON.lookup ([] : RawObj) "type") = none ∧
    parseMessage sampleEnv [] =
      .error (.jsonDecode (.formatted (.obj []))
                "missing or invalid message type") ∧
    JSON.asStr (JSON.lookup [("type", JSON.str "weird")] "type") = some "weird" ∧
    parseMessage sampleEnv [("type", JSON.str "weird")] =
      .ok (.system { subtype := "weird", sessionID := "", createdAt := 5 }) :=
  ⟨rfl, (parseMessage_type_dispatch sampleEnv []).1 rfl, rfl,
   (parseMessage_type_dispatch sampleEnv [("type", JSON.str "weird")]).2 "weird"
     rfl (by decide) (by decide) (by decide) (by decide)⟩

/-! ## Claim C8 -/

/-- Replace the `createdAt` field of a message, leaving every other field as is. -/
def Message.withCreatedAt : Message → ℕ → Message
  | .system m, t => .system { m with createdAt := t }
  | .assistant m, t => .assistant { m with createdAt := t }
  | .user m, t => .user { m with createdAt := t }
  | .result m, t => .result { m with createdAt := t }

/-- `parseResultMessage` reads the environment only through `format`. -/
theorem parseResultMessage_format_congr (env₁ env₂ : DecodeEnv) (raw : RawObj)
    (sid : String) (ts : ℕ) (hf : env₁.format = env₂.format) :
    parseResultMessage env₁ raw sid ts = parseResultMessage env₂ raw sid ts := by
  unfold parseResultMessage
  rw [hf]

/-- Two environments that agree on `format` and produce the same timestamp
decode every object identically. -/
theorem parseMessage_congr (env₁ env₂ : DecodeEnv) (raw : RawObj)
    (hf : env₁.format = env₂.format)
    (ht : parseTimestamp env₁ raw = parseTimestamp env₂ raw) :
    parseMessage env₁ raw = parseMessage env₂ raw := by
  have hr : ∀ sid ts, parseResultMessage env₁ raw sid ts =
      parseResultMessage env₂ raw sid ts :=
    fun sid ts => parseResultMessage_format_congr env₁ env₂ raw sid ts hf
  unfold parseMessage
  cases h : JSON.asStr (JSON.lookup raw "type") with
  | none => rfl
  | some t => simp only [ht, hr]

/-- Two environments that agree on `format` decode every object to the same
message up to the `createdAt` field. -/
theorem parseMessage_withCreatedAt_congr (env₁ env₂ : DecodeEnv) (raw : RawObj)
    (hf : env₁.format = env₂.format) :
    (parseMessage env₁ raw).map (·.withCreatedAt 0) =
      (parseMessage env₂ raw).map (·.withCreatedAt 0) := by
  unfold parseMessage
  cases h : JSON.asStr (JSON.lookup raw "type") with
  | none => rfl
  | some t =>
    by_cases h1 : t = "system"
    · simp only [if_pos h1]
      rfl
    by_cases h2 : t = "assistant"
    · simp only [if_neg h1, if_pos h2]
      unfold parseAssistantMessage
      cases hc : parseMessageContent raw with
      | error e => rfl
      | ok blocks => rfl
    by_cases h3 : t = "user"
    · simp only [if_neg h1, if_neg h2, if_pos h3]
      unfold parseUserMessage
      cases hc : parseMessageContent raw with
      | error e => rfl
      | ok blocks => rfl
    by_cases h4 : t = "result"
    · simp only [if_neg h1, if_neg h2, if_neg h3, if_pos h4]
      have hr := parseResultMessage_format_congr env₁ env₂ raw
        (parseCommonFields raw).1 0 hf
      show (Except.ok (Message.result
          (parseResultMessage env₁ raw (parseCommonFields raw).1 0))
          : Except CCError Message) =
        Except.ok (Message.result
          (parseResultMessage env₂ raw (parseCommonFields raw).1 0))
      rw [hr]
    · simp only [if_neg h1, if_neg h2, if_neg h3, if_neg h4]
      rfl

/-- Counterexample to claim C8 as stated: the record `{"type":"result"}`
carries no `timestamp` field, so `parseMessage` substitutes the current
wall-clock time; two runs whose clocks read 0 and 1 yield messages whose
timestamp fields differ, although the input bytes are identical. -/
theorem decode_not_deterministic_counterexample :
    parseMessage { sampleEnv with now := 0 } [("type", JSON.str "result")] ≠
      parseMessage { sampleEnv with now := 1 } [("type", JSON.str "result")] := by
  decide

/-- Claim C8 (amended): decoding a record with a recognized `type` is a pure
function of the input object and the shared library functions; every field
except the timestamp is independent of the wall clock, and when the record
carries a `timestamp` string that parses as RFC3339 the decode — timestamp
included — is fully deterministic. -/
theorem parseMessage_deterministic_up_to_clock
    (u : String → Option RawObj) (rp : String → Option ℕ) (fm : JSON → String)
    (n₁ n₂ : ℕ) (rawMessage : RawObj) :
    ((parseMessage ⟨u, rp, n₁, fm⟩ rawMessage).map (·.withCreatedAt 0) =
      (parseMessage ⟨u, rp, n₂, fm⟩ rawMessage).map (·.withCreatedAt 0)) ∧
    (∀ ts t', JSON.asStr (JSON.lookup rawMessage "timestamp") = some ts →
      rp ts = some t' →
      parseMessage ⟨u, rp, n₁, fm⟩ rawMessage =
        parseMessage ⟨u, rp, n₂, fm⟩ rawMessage) := by
  constructor
  · exact parseMessage_withCreatedAt_congr _ _ rawMessage rfl
  · intro ts t' hts hrp
    refine parseMessage_congr _ _ rawMessage rfl ?_
    simp only [parseTimestamp, hts]
    simp [hrp]

/-- Witness for C8: a `result` record with a parseable timestamp decodes
identically under clocks 0 and 1. -/
theorem parseMessage_deterministic_witness :
    JSON.asStr (JSON.lookup
        [("type", JSON.str "result"), ("timestamp", JSON.str "stamp")]
        "timestamp") = some "stamp" ∧
    sampleEnv.rfcParse "stamp" = some 100 ∧
    parseMessage ⟨sampleEnv.unmarshal, sampleEnv.rfcParse, 0, sampleEnv.format⟩
        [("type", JSON.str "result"), ("timestamp", JSON.str "stamp")] =
      parseMessage ⟨sampleEnv.unmarshal, sampleEnv.rfcParse, 1, sampleEnv.format⟩
        [("type", JSON.str "result"), ("timestamp", JSON.str "stamp")] :=
  ⟨rfl, rfl,
   (parseMessage_deterministic_up_to_clock sampleEnv.unmarshal sampleEnv.rfcParse
      sampleEnv.format 0 1
      [("type", JSON.str "result"), ("timestamp", JSON.str "stamp")]).2
     "stamp" 100 rfl rfl⟩

/-! ## Claim C9 -/

/-- Counterexample to claim C9 as stated: with `stream-json` selected and
`Verbose` explicitly set to false (an explicit request for silence), the
`else if` chain of `addOutputArgs` still appends `--verbose`. -/
theorem verbose_forced_despite_silence_counterexample :
    addOutputArgs [] { outputFormat := some .streamJSON, verbose := some false } =
      ["--output-format", "stream-json", "--verbose"] :=
  rfl

/-- Claim C9 (amended): the assembled output arguments contain `--verbose`
exactly when it was already present, the caller set `Verbose` to true, or
the effective output format is `stream-json` — regardless of an explicit
`Verbose = false`. -/
theorem addOutputArgs_verbose_iff (args : List String) (options : Options) :
    "--verbose" ∈ addOutputArgs args options ↔
      ("--verbose" ∈ args ∨ options.verbose = some true ∨
        options.outputFormat.getD .streamJSON = .streamJSON) := by
  have hne : ∀ f : OutputFormat, ¬ ("--verbose" : String) = f.toArg := by
    intro f
    cases f <;> decide
  rcases options with ⟨fmtOpt, verbOpt⟩
  rcases verbOpt with _ | v
  · rcases fmtOpt with _ | f
    · simp [addOutputArgs, hne OutputFormat.streamJSON, OutputFormat.toArg]
    · cases f <;>
        simp [addOutputArgs, OutputFormat.toArg, hne OutputFormat.text,
          hne OutputFormat.json, hne OutputFormat.streamJSON]
  · cases v
    · rcases fmtOpt with _ | f
      · simp [addOutputArgs, hne OutputFormat.streamJSON, OutputFormat.toArg]
      · cases f <;>
          simp [addOutputArgs, OutputFormat.toArg, hne OutputFormat.text,
            hne OutputFormat.json, hne OutputFormat.streamJSON]
    · rcases fmtOpt with _ | f
      · simp [addOutputArgs, hne OutputFormat.streamJSON, OutputFormat.toArg]
      · cases f <;>
          simp [addOutputArgs, OutputFormat.toArg, hne OutputFormat.text,
            hne OutputFormat.json, hne OutputFormat.streamJSON]

/-- Witness for C9: explicit `Verbose = true` with `json` format appends
`--verbose`. -/
theorem addOutputArgs_verbose_iff_witness :
    "--verbose" ∈ addOutputArgs []
      { outputFormat := some .json, verbose := some true } :=
  (addOutputArgs_verbose_iff []
    { outputFormat := some .json, verbose := some true }).mpr
    (Or.inr (Or.inl rfl))

/-! ## Claim C10 -/

/-- Claim C10: a batch query with output format `text` that reads the full
output stream successfully yields exactly one message — a Result with
subtype `text_output`, session ID `text_output_session`, and a non-nil
result string equal to the entire raw output content. The conclusion holds
for every environment, in particular for every `unmarshal` function, so no
JSON decoding of the output is involved. -/
theorem readOutput_text_single_result (env : DecodeEnv) (stdout : OutputStream)
    (options : Options)
    (hfmt : options.outputFormat.getD .streamJSON = .text)
    (hok : stdout.scanErr = none) :
    readOutput env stdout options =
      .ok [.result { subtype := "text_output",
                     result := some stdout.raw,
                     sessionID := "text_output_session",
                     createdAt := env.now }] := by
  simp only [readOutput, hfmt]
  simp [readTextOutput, hok]

/-- Witness for C10: raw output `hello` (not JSON) becomes the single
synthetic result message. -/
theorem readOutput_text_single_result_witness :
    (({ outputFormat := some .text } : Options).outputFormat.getD .streamJSON
      = .text) ∧
    ((⟨"hello", none⟩ : OutputStream).scanErr = none) ∧
    readOutput sampleEnv ⟨"hello", none⟩ { outputFormat := some .text } =
      .ok [.result { subtype := "text_output", result := some "hello",
                     sessionID := "text_output_session", createdAt := 5 }] :=
  ⟨rfl, rfl,
   readOutput_text_single_result sampleEnv ⟨"hello", none⟩
     { outputFormat := some .text } rfl rfl⟩

/-! ## Claim C2 -/

/-- Decoding a prefix that succeeds, then the rest: batch version. -/
theorem decodeLines_append_ok (env : DecodeEnv) (pre : List String)
    (ms : List Message) (h : decodeLines env pre = .ok ms) (rest : List String) :
    decodeLines env (pre ++ rest) =
      match decodeLines env rest with
      | .error e => .error e
      | .ok ms' => .ok (ms ++ ms') := by
  induction pre generalizing ms with
  | nil =>
    simp only [decodeLines, Except.ok.injEq] at h
    subst h
    cases hrest : decodeLines env rest <;> simp [hrest]
  | cons line pre ih =>
    simp only [List.cons_append, decodeLines] at h ⊢
    by_cases hl : line = ""
    · simp only [if_pos hl] at h ⊢
      exact ih ms h
    · simp only [if_neg hl] at h ⊢
      cases hu : env.unmarshal line with
      | none => simp [hu] at h
      | some rawMessage =>
        simp only [hu] at h ⊢
        cases hp : parseMessage env rawMessage with
        | error e => simp [hp] at h
        | ok m =>
          simp only [hp] at h ⊢
          cases hpre : decodeLines env pre with
          | error e => simp [hpre] at h
          | ok ms₀ =>
            simp only [hpre, Except.ok.injEq] at h
            subst h
            simp only [List.append_eq]
            rw [ih ms₀ hpre]
            cases hrest : decodeLines env rest <;> simp

/-- Decoding a prefix that succeeds, then the rest: streaming version — the
messages of the prefix are all delivered before the rest is considered. -/
theorem streamLoop_append_ok (env : DecodeEnv) (pre : List String)
    (ms : List Message) (h : decodeLines env pre = .ok ms) (rest : List String) :
    streamLoop env (pre ++ rest) =
      (ms ++ (streamLoop env rest).1, (streamLoop env rest).2) := by
  induction pre generalizing ms with
  | nil =>
    simp only [decodeLines, Except.ok.injEq] at h
    subst h
    simp
  | cons line pre ih =>
    simp only [List.cons_append, decodeLines] at h
    simp only [List.cons_append, streamLoop]
    by_cases hl : line = ""
    · simp only [if_pos hl] at h ⊢
      exact ih ms h
    · simp only [if_neg hl] at h ⊢
      cases hu : env.unmarshal line with
      | none => simp [hu] at h
      | some rawMessage =>
        simp only [hu] at h ⊢
        cases hp : parseMessage env rawMessage with
        | error e => simp [hp] at h
        | ok m =>
          simp only [hp] at h ⊢
          cases hpre : decodeLines env pre with
          | error e => simp [hpre] at h
          | ok ms₀ =>
            simp only [hpre, Except.ok.injEq] at h
            subst h
            simp only [List.append_eq]
            rw [ih ms₀ hpre]
            simp

/-- Counterexample to claim C2 as stated: on the same malformed line, the
streaming query surfaces the `CLIJSONDecodeError` carrying the raw line,
but the batch `Query` — whose `handleReadError` discards the read error —
surfaces a `ProcessError` with exit code `-1` instead; the two modes do not
classify identically at the query level. -/
theorem batch_query_decode_error_counterexample :
    Query sampleEnv { stdout := ⟨"badline", none⟩ } {} =
      ([], some (.process (-1) "" "")) ∧
    QueryStream sampleEnv { stdout := ⟨"badline", none⟩ } {} =
      ([], some (.jsonDecode (.raw "badline") "json unmarshal error")) :=
  ⟨rfl, rfl⟩

/-- Claim C2 (amended): a line that is not a well-formed JSON object fails
the shared decode routine with a `CLIJSONDecodeError` carrying the raw line
verbatim, identically in `readMessages` and `streamMessages`; the streaming
query surfaces this error unchanged, while the batch `Query` entry point
replaces any read error with a `ProcessError` carrying exit code `-1` and
the captured stderr. -/
theorem malformed_line_error_classification (env : DecodeEnv) (r : ProcessRun)
    (options : Options) (pre : List String) (line : String) (post : List String)
    (ms : List Message)
    (hlines : scanLines r.stdout.raw = pre ++ line :: post)
    (hline : line ≠ "")
    (hbad : env.unmarshal line = none)
    (hpre : decodeLines env pre = .ok ms)
    (h1 : r.cliNotFound = none) (h2 : r.pipeErr = none) (h3 : r.startErr = none)
    (h4 : r.writeErr = none)
    (hfmt : options.outputFormat.getD .streamJSON ≠ .text) :
    readMessages env r.stdout =
      .error (.jsonDecode (.raw line) "json unmarshal error") ∧
    streamMessages env r.stdout =
      (ms, some (.jsonDecode (.raw line) "json unmarshal error")) ∧
    QueryStream env r options =
      (ms, some (.jsonDecode (.raw line) "json unmarshal error")) ∧
    Query env r options = ([], some (.process (-1) (stderrText r) "")) := by
  have hdl : decodeLines env (scanLines r.stdout.raw) =
      .error (.jsonDecode (.raw line) "json unmarshal error") := by
    rw [hlines, decodeLines_append_ok env pre ms hpre]
    simp [decodeLines, hline, hbad]
  have hsl : streamLoop env (scanLines r.stdout.raw) =
      (ms, some (.jsonDecode (.raw line) "json unmarshal error")) := by
    rw [hlines, streamLoop_append_ok env pre ms hpre]
    simp [streamLoop, hline, hbad]
  have hrm : readMessages env r.stdout =
      .error (.jsonDecode (.raw line) "json unmarshal error") := by
    unfold readMessages
    rw [hdl]
  have hsm : streamMessages env r.stdout =
      (ms, some (.jsonDecode (.raw line) "json unmarshal error")) := by
    unfold streamMessages
    rw [hsl]
  have hro : readOutput env r.stdout options =
      .error (.jsonDecode (.raw line) "json unmarshal error") := by
    simp only [readOutput, if_neg hfmt]
    exact hrm
  refine ⟨hrm, hsm, ?_, ?_⟩
  · simp [QueryStream, h1, h2, h3, hsm]
  · simp [Query, h1, h2, h3, h4, hro, handleReadError]

/-- Witness for C2: the stream `sysline\nbadline` where the first line
decodes to a system message and the second is malformed. -/
theorem malformed_line_error_classification_witness :
    scanLines "sysline\nbadline" = ["sysline"] ++ "badline" :: [] ∧
    sampleEnv.unmarshal "badline" = none ∧
    decodeLines sampleEnv ["sysline"] =
      .ok [.system { subtype := "", sessionID := "", createdAt := 5 }] ∧
    (readMessages sampleEnv ⟨"sysline\nbadline", none⟩ =
      .error (.jsonDecode (.raw "badline") "json unmarshal error") ∧
     streamMessages sampleEnv ⟨"sysline\nbadline", none⟩ =
      ([.system { subtype := "", sessionID := "", createdAt := 5 }],
       some (.jsonDecode (.raw "badline") "json unmarshal error")) ∧
     QueryStream sampleEnv { stdout := ⟨"sysline\nbadline", none⟩ } {} =
      ([.system { subtype := "", sessionID := "", createdAt := 5 }],
       some (.jsonDecode (.raw "badline") "json unmarshal error")) ∧
     Query sampleEnv { stdout := ⟨"sysline\nbadline", none⟩ } {} =
      ([], some (.process (-1) "" ""))) :=
  ⟨rfl, rfl, rfl,
   malformed_line_error_classification sampleEnv
     { stdout := ⟨"sysline\nbadline", none⟩ } {} ["sysline"] "badline" []
     [.system { subtype := "", sessionID := "", createdAt := 5 }]
     rfl (by decide) rfl rfl rfl rfl rfl rfl (by decide)⟩

/-! ## Claim C4 -/

/-- Counterexample to claim C4 as stated: in streaming mode a failing
prompt write is silently dropped — `sendPrompt` ignores the write error, so
the stream query delivers its messages and reports no error at all. -/
theorem stream_write_failure_dropped_counterexample :
    (QueryStream sampleEnv
        { writeErr := some "broken pipe", stdout := ⟨"sysline", none⟩ } {}).2 =
      none :=
  rfl

/-- Claim C4 (amended): in batch mode a failed one-shot prompt write
surfaces as a `CLIConnectionError`; in streaming mode `sendPrompt` discards
the write error (`_, _ = stdin.Write`), so the streaming result is
independent of it — the failure is silently dropped. -/
theorem write_failure_classification (env : DecodeEnv) (r : ProcessRun)
    (options : Options) (e : String)
    (h1 : r.cliNotFound = none) (h2 : r.pipeErr = none) (h3 : r.startErr = none)
    (h4 : r.writeErr = some e) :
    Query env r options =
      ([], some (.connection "failed to write prompt to stdin")) ∧
    (∀ w, QueryStream env { r with writeErr := w } options =
      QueryStream env r options) := by
  refine ⟨?_, fun w => rfl⟩
  simp [Query, h1, h2, h3, h4]

/-- Witness for C4: a concrete run whose write fails. -/
theorem write_failure_classification_witness :
    ({ writeErr := some "EPIPE", stdout := ⟨"", none⟩ } : ProcessRun).writeErr =
      some "EPIPE" ∧
    Query sampleEnv { writeErr := some "EPIPE", stdout := ⟨"", none⟩ } {} =
      ([], some (.connection "failed to write prompt to stdin")) ∧
    QueryStream sampleEnv
        { writeErr := some "other", stdout := ⟨"", none⟩ } {} =
      QueryStream sampleEnv { writeErr := some "EPIPE", stdout := ⟨"", none⟩ } {} :=
  ⟨rfl,
   (write_failure_classification sampleEnv
      { writeErr := some "EPIPE", stdout := ⟨"", none⟩ } {} "EPIPE"
      rfl rfl rfl rfl).1,
   (write_failure_classification sampleEnv
      { writeErr := some "EPIPE", stdout := ⟨"", none⟩ } {} "EPIPE"
      rfl rfl rfl rfl).2 (some "other")⟩

/-! ## Claim C5 -/

/-- Claim C5: when the child exits non-zero after its output stream was
consumed without a decode error, both query modes fail with a `ProcessError`
carrying that exit code and the full captured stderr text; the streaming
delivered messages of the streaming query are exactly those the stream loop decoded before
the exit. -/
theorem nonzero_exit_process_error (env : DecodeEnv) (r : ProcessRun)
    (options : Options) (code : ℤ) (msgs smsgs : List Message)
    (h1 : r.cliNotFound = none) (h2 : r.pipeErr = none) (h3 : r.startErr = none)
    (h4 : r.writeErr = none)
    (hwait : r.wait = .exitError code) (hcode : code ≠ 0)
    (hserr : r.stderrReadErr = false)
    (hread : readOutput env r.stdout options = .ok msgs)
    (hstream : streamMessages env r.stdout = (smsgs, none)) :
    Query env r options = (msgs, some (.process code r.stderr "")) ∧
    QueryStream env r options = (smsgs, some (.process code r.stderr "")) := by
  have hst : stderrText r = r.stderr := by simp [stderrText, hserr]
  constructor
  · simp [Query, h1, h2, h3, h4, hread, waitForCommand, hwait, hst]
  · simp [QueryStream, h1, h2, h3, hstream, waitForStreamCommand, hwait, hst]

/-- Witness for C5: exit code 1 with stderr `auth failed` after one decoded
system message. -/
theorem nonzero_exit_process_error_witness :
    ({ stdout := ⟨"sysline", none⟩, stderr := "auth failed",
       wait := .exitError 1 } : ProcessRun).wait = .exitError 1 ∧
    (1 : ℤ) ≠ 0 ∧
    readOutput sampleEnv ⟨"sysline", none⟩ {} =
      .ok [.system { subtype := "", sessionID := "", createdAt := 5 }] ∧
    Query sampleEnv
        { stdout := ⟨"sysline", none⟩, stderr := "auth failed",
          wait := .exitError 1 } {} =
      ([.system { subtype := "", sessionID := "", createdAt := 5 }],
       some (.process 1 "auth failed" "")) ∧
    QueryStream sampleEnv
        { stdout := ⟨"sysline", none⟩, stderr := "auth failed",
          wait := .exitError 1 } {} =
      ([.system { subtype := "", sessionID := "", createdAt := 5 }],
       some (.process 1 "auth failed" "")) :=
  ⟨rfl, by decide, rfl,
   (nonzero_exit_process_error sampleEnv
      { stdout := ⟨"sysline", none⟩, stderr := "auth failed",
        wait := .exitError 1 } {} 1
      [.system { subtype := "", sessionID := "", createdAt := 5 }]
      [.system { subtype := "", sessionID := "", createdAt := 5 }]
      rfl rfl rfl rfl rfl (by decide) rfl rfl rfl).1,
   (nonzero_exit_process_error sampleEnv
      { stdout := ⟨"sysline", none⟩, stderr := "auth failed",
        wait := .exitError 1 } {} 1
      [.system { subtype := "", sessionID := "", createdAt := 5 }]
      [.system { subtype := "", sessionID := "", createdAt := 5 }]
      rfl rfl rfl rfl rfl (by decide) rfl rfl rfl).2⟩

end ClaudeSDK
